import Mathlib

/-!
# DeepL utility bar: document-translation job orchestration

A shallow embedding of the document-translation part of
`force-app/main/default/lwc/deepLUtilityBar/deepLUtilityBar.js`.

The component is single-threaded and event-driven.  Every handler runs
until its next `await` and then suspends; the rest of the handler runs
when the awaited Apex call settles.  The embedding therefore splits each
`async` function at its `await`:

* `handleUploadFinished`, `handleTranslateSelectedFile`: the part up to
  `await initiateDocumentUpload(...)`; `uploadResolved` / `uploadRejected`
  are the `try` remainder and the `catch` block;
* `pollStatus`: the `setInterval` registration; `pollTick` is the callback
  up to `await checkDocumentStatus(...)`; `statusResolved` /
  `statusRejected` are the remainder of the callback;
* `downloadTranslatedFile`: the part up to `await downloadDocument(...)`;
  `downloadResolved` / `downloadRejected` are the remainder.

Suspended continuations are kept in the state together with the values
their closures captured.  The state also carries a log of the externally
visible actions (writes to `fileStatus`, Apex calls, timer calls, toasts)
in program order.

Timers and Apex calls are named by fresh numbers taken from `nextId`.  A tick
of a cleared timer and the settling of a call that is not pending do nothing.
A tick may fire while earlier queries of the same timer are pending, as
`setInterval` fires every 3000 ms whether or not the callback has finished.

Not embedded: the text-translation path (`handleTranslateText`, `inputText`,
`translatedText`, `isTranslating`, `error`), `handleCopy`, the picklist option
tables and `fileOptions`, and `console.error`.  A resolved Apex call is taken
to return an object of the shape the handler reads (`document_id` and
`document_key`; `status`; the new content version id).
-/

namespace DeepLUtilityBar

/-- Argument object of an Apex call: the keys of the object literal with their values. -/
abbrev Params := List (String × String)

/-- Values captured by the closures of `pollStatus` and `downloadTranslatedFile`. -/
structure Job where
  documentId : String
  documentKey : String
  originalFileName : String
  deriving DecidableEq, Repr

/-- Element of `event.detail.files` as read by `handleUploadFinished`. -/
structure UploadedFile where
  contentVersionId : String
  name : String
  deriving DecidableEq, Repr

/-- Record returned by `getFilesFromSalesforce` as read by `loadFiles`. -/
structure SFFile where
  Id : String
  Title : String
  FileName : String
  deriving DecidableEq, Repr

/-- Rejection value of an Apex call, as far as the `catch` blocks read it:
`error.body.message` (absent when `error.body` is) and `error.message`. -/
structure ApexError where
  bodyMessage : Option String
  message : Option String
  deriving DecidableEq, Repr

/-- The handler whose `await initiateDocumentUpload` is suspended. -/
inductive Entry where
  | uploadFinished
  | translateSelectedFile
  deriving DecidableEq, Repr

/-- Externally visible actions, logged in program order: the writes to `fileStatus`,
the Apex calls of the document path, the timer calls and the toasts.  Writes to
`isFileProcessing` and `downloadUrl` are not logged; they show in the fields. -/
inductive Effect where
  | fileStatus (value : String)
  | initiateDocumentUpload (params : Params)
  | checkDocumentStatus (params : Params)
  | downloadDocument (params : Params)
  | setInterval (id : Nat) (ms : Nat)
  | clearInterval (id : Nat)
  | showToast (title message variant : String)
  deriving DecidableEq, Repr

/-- Component instance: the tracked fields the document path uses, the timers
and suspended continuations of the runtime, and the action log. -/
structure Component where
  sourceLang : String
  targetLang : String
  formality : String
  fileStatus : String
  isFileProcessing : Bool
  downloadUrl : Option String
  selectedFile : Option String
  selectedFileName : Option String
  fileLookup : List (String × String)
  /-- next fresh identifier for timers and Apex calls -/
  nextId : Nat
  /-- active `setInterval` timers with the values their callback captured -/
  intervals : List (Nat × Job)
  /-- suspended `await initiateDocumentUpload`: call id, handler, captured `fileName` -/
  uploads : List (Nat × Entry × String)
  /-- suspended `await checkDocumentStatus`: call id, captured `intervalId`, captured job -/
  queries : List (Nat × Nat × Job)
  /-- suspended `await downloadDocument`: call id, captured job -/
  downloads : List (Nat × Job)
  log : List Effect
  deriving DecidableEq, Repr

/-- Field initialisers of the class. -/
def init : Component :=
  { sourceLang := "auto", targetLang := "EN-US", formality := "default",
    fileStatus := "", isFileProcessing := false, downloadUrl := none,
    selectedFile := none, selectedFileName := none, fileLookup := [],
    nextId := 0, intervals := [], uploads := [], queries := [], downloads := [],
    log := [] }

/-- JavaScript truthiness of a value that is `undefined` or a string. -/
def truthy : Option String → Bool
  | none => false
  | some s => s != ""

/-- Remove every entry with key `id`. -/
def dropId {β : Type} (id : Nat) (l : List (Nat × β)) : List (Nat × β) :=
  l.filter (fun e => e.1 != id)

def pollInterval : Nat := 3000

def handleSourceChange (value : String) (c : Component) : Component :=
  { c with sourceLang := value }

def handleTargetChange (value : String) (c : Component) : Component :=
  { c with targetLang := value }

def handleFormalityChange (value : String) (c : Component) : Component :=
  { c with formality := value }

/-- The `.then` callback of `loadFiles`: `this.fileLookup[file.Id] = file.FileName`
for each file in order (a later file with the same id overrides). -/
def loadFiles (result : List SFFile) (c : Component) : Component :=
  { c with fileLookup := result.foldl (fun m f => (f.Id, f.FileName) :: m) c.fileLookup }

/-- Body of `handleFileChange`.  `this.fileLookup[...]` is read as a lookup among the
keys `loadFiles` stored: the values of the file picklist are record ids, which are
taken not to be names of members of `Object.prototype`. -/
def handleFileChange (value : String) (c : Component) : Component :=
  { c with selectedFile := some value, selectedFileName := c.fileLookup.lookup value }

/-- Argument object of both `initiateDocumentUpload` calls. -/
def uploadParams (contentVersionId : String) (c : Component) : Params :=
  [("contentVersionId", contentVersionId), ("targetLang", c.targetLang),
   ("sourceLang", c.sourceLang)]

/-- Body of `handleUploadFinished` up to the `await`. -/
def handleUploadFinished (uploadedFiles : List UploadedFile) (c : Component) : Component :=
  match uploadedFiles with
  | [] => c
  | f :: _ =>
    { c with
      fileStatus := "Uploading to DeepL..."
      isFileProcessing := true
      downloadUrl := none
      nextId := c.nextId + 1
      uploads := c.uploads ++ [(c.nextId, Entry.uploadFinished, f.name)]
      log := c.log ++ [Effect.fileStatus "Uploading to DeepL...",
        Effect.initiateDocumentUpload (uploadParams f.contentVersionId c)] }

/-- Body of `handleTranslateSelectedFile` up to the `await`.  The lookup of the file
name is read as in `handleFileChange`. -/
def handleTranslateSelectedFile (c : Component) : Component :=
  if truthy c.selectedFile then
    let selected := c.selectedFile.getD ""
    let looked := c.fileLookup.lookup selected
    let fileName := if truthy looked then looked.getD "" else "TranslatedFile"
    { c with
      fileStatus := "Uploading to DeepL..."
      isFileProcessing := true
      downloadUrl := none
      nextId := c.nextId + 1
      uploads := c.uploads ++ [(c.nextId, Entry.translateSelectedFile, fileName)]
      log := c.log ++ [Effect.fileStatus "Uploading to DeepL...",
        Effect.initiateDocumentUpload (uploadParams selected c)] }
  else
    { c with log := c.log ++
        [Effect.showToast "Error" "Please select a file to translate." "error"] }

/-- Body of `pollStatus`: registers the timer; the callback runs on later ticks. -/
def pollStatus (documentId documentKey originalFileName : String) (c : Component) :
    Component :=
  { c with
    nextId := c.nextId + 1
    intervals := c.intervals ++ [(c.nextId, ⟨documentId, documentKey, originalFileName⟩)]
    log := c.log ++ [Effect.setInterval c.nextId pollInterval] }

/-- Remainder of the `try` block of either job-start handler once
`initiateDocumentUpload` has resolved with `document_id`, `document_key`. -/
def uploadResolved (callId : Nat) (document_id document_key : String) (c : Component) :
    Component :=
  match c.uploads.lookup callId with
  | none => c
  | some (_, fileName) =>
    pollStatus document_id document_key fileName
      { c with
        uploads := dropId callId c.uploads
        fileStatus := "Translating..."
        log := c.log ++ [Effect.fileStatus "Translating..."] }

/-- Toast message computed in the `catch` block of the given handler. -/
def uploadErrorMessage (entry : Entry) (error : ApexError) : String :=
  match entry with
  | Entry.uploadFinished =>
    if truthy error.bodyMessage then error.bodyMessage.getD ""
    else if truthy error.message then error.message.getD ""
    else "File upload failed."
  | Entry.translateSelectedFile =>
    if truthy error.bodyMessage then error.bodyMessage.getD "" else "File upload failed."

/-- The `catch` block of either job-start handler. -/
def uploadRejected (callId : Nat) (error : ApexError) (c : Component) : Component :=
  match c.uploads.lookup callId with
  | none => c
  | some (entry, _) =>
    { c with
      uploads := dropId callId c.uploads
      fileStatus := "Upload failed."
      isFileProcessing := false
      log := c.log ++ [Effect.fileStatus "Upload failed.",
        Effect.showToast "Error" (uploadErrorMessage entry error) "error"] }

/-- The timer callback of `pollStatus` up to the `await`; a cleared timer does not fire. -/
def pollTick (intervalId : Nat) (c : Component) : Component :=
  match c.intervals.lookup intervalId with
  | none => c
  | some job =>
    { c with
      nextId := c.nextId + 1
      queries := c.queries ++ [(c.nextId, intervalId, job)]
      log := c.log ++ [Effect.checkDocumentStatus
        [("documentId", job.documentId), ("documentKey", job.documentKey)]] }

/-- Body of `downloadTranslatedFile` up to the `await`. -/
def downloadTranslatedFile (documentId documentKey originalFileName : String)
    (c : Component) : Component :=
  { c with
    fileStatus := "Downloading..."
    nextId := c.nextId + 1
    downloads := c.downloads ++ [(c.nextId, ⟨documentId, documentKey, originalFileName⟩)]
    log := c.log ++ [Effect.fileStatus "Downloading...",
      Effect.downloadDocument [("documentId", documentId), ("documentKey", documentKey),
        ("originalFileName", originalFileName)]] }

/-- Remainder of the timer callback once `checkDocumentStatus` has resolved
with `statusResult.status = status`. -/
def statusResolved (callId : Nat) (status : String) (c : Component) : Component :=
  match c.queries.lookup callId with
  | none => c
  | some (intervalId, job) =>
    let c1 : Component :=
      { c with
        queries := dropId callId c.queries
        fileStatus := "Status: " ++ status
        log := c.log ++ [Effect.fileStatus ("Status: " ++ status)] }
    if status = "done" then
      downloadTranslatedFile job.documentId job.documentKey job.originalFileName
        { c1 with
          intervals := dropId intervalId c1.intervals
          log := c1.log ++ [Effect.clearInterval intervalId] }
    else if status = "error" then
      { c1 with
        intervals := dropId intervalId c1.intervals
        fileStatus := "Error during translation."
        isFileProcessing := false
        log := c1.log ++ [Effect.clearInterval intervalId,
          Effect.fileStatus "Error during translation."] }
    else c1

/-- The `catch` block of the timer callback. -/
def statusRejected (callId : Nat) (c : Component) : Component :=
  match c.queries.lookup callId with
  | none => c
  | some (intervalId, _) =>
    { c with
      queries := dropId callId c.queries
      intervals := dropId intervalId c.intervals
      fileStatus := "Polling failed."
      isFileProcessing := false
      log := c.log ++ [Effect.clearInterval intervalId, Effect.fileStatus "Polling failed."] }

def downloadUrlBase : String := "/sfc/servlet.shepherd/version/download/"

/-- Remainder of the `try` block of `downloadTranslatedFile`. -/
def downloadResolved (callId : Nat) (newContentVersionId : String) (c : Component) :
    Component :=
  match c.downloads.lookup callId with
  | none => c
  | some _ =>
    { c with
      downloads := dropId callId c.downloads
      fileStatus := "Complete!"
      isFileProcessing := false
      downloadUrl := some (downloadUrlBase ++ newContentVersionId)
      log := c.log ++ [Effect.fileStatus "Complete!",
        Effect.showToast "Success" "File translated successfully!" "success"] }

/-- The `catch` block of `downloadTranslatedFile`. -/
def downloadRejected (callId : Nat) (c : Component) : Component :=
  match c.downloads.lookup callId with
  | none => c
  | some _ =>
    { c with
      downloads := dropId callId c.downloads
      fileStatus := "Download failed."
      isFileProcessing := false
      log := c.log ++ [Effect.fileStatus "Download failed."] }

/-- Things that can happen to a component instance. -/
inductive Event where
  | sourceChange (value : String)
  | targetChange (value : String)
  | formalityChange (value : String)
  | filesLoaded (result : List SFFile)
  | fileChange (value : String)
  | uploadFinished (files : List UploadedFile)
  | translateSelectedFile
  | uploadResolved (callId : Nat) (document_id document_key : String)
  | uploadRejected (callId : Nat) (error : ApexError)
  | tick (intervalId : Nat)
  | statusResolved (callId : Nat) (status : String)
  | statusRejected (callId : Nat)
  | downloadResolved (callId : Nat) (newContentVersionId : String)
  | downloadRejected (callId : Nat)
  deriving DecidableEq, Repr

/-- One turn of the event loop. -/
def step (c : Component) : Event → Component
  | Event.sourceChange v => handleSourceChange v c
  | Event.targetChange v => handleTargetChange v c
  | Event.formalityChange v => handleFormalityChange v c
  | Event.filesLoaded r => loadFiles r c
  | Event.fileChange v => handleFileChange v c
  | Event.uploadFinished fs => handleUploadFinished fs c
  | Event.translateSelectedFile => handleTranslateSelectedFile c
  | Event.uploadResolved i d k => uploadResolved i d k c
  | Event.uploadRejected i e => uploadRejected i e c
  | Event.tick i => pollTick i c
  | Event.statusResolved i s => statusResolved i s c
  | Event.statusRejected i => statusRejected i c
  | Event.downloadResolved i r => downloadResolved i r c
  | Event.downloadRejected i => downloadRejected i c

/-- Run a sequence of events. -/
def run (c : Component) (events : List Event) : Component :=
  events.foldl step c

/-- States a component instance can be in. -/
inductive Reachable : Component → Prop where
  | init : Reachable init
  | step (c : Component) (e : Event) : Reachable c → Reachable (step c e)

/-- The values written to `fileStatus`, in order. -/
def statusWrites : List Effect → List String
  | [] => []
  | Effect.fileStatus v :: rest => v :: statusWrites rest
  | _ :: rest => statusWrites rest

/-! ## Concrete runs used below -/

def fileA : UploadedFile := ⟨"068A", "a.docx"⟩

def fileB : UploadedFile := ⟨"068B", "b.docx"⟩

/-- Job 1 has been uploaded and its poller (timer 1) is running. -/
def onePoller : Component :=
  run init [Event.uploadFinished [fileA], Event.uploadResolved 0 "J1" "K1"]

/-- A second job is started from `onePoller` and its upload resolves. -/
def twoJobs : Component :=
  run onePoller [Event.uploadFinished [fileB], Event.uploadResolved 2 "J2" "K2"]

/-- A file is selected in `onePoller`. -/
def onePollerSelected : Component :=
  run onePoller [Event.filesLoaded [⟨"068B", "B", "b.docx"⟩], Event.fileChange "068B"]

/-- Timer 1 has fired once and its query (call 2) has not returned. -/
def oneInFlight : Component := step onePoller (Event.tick 1)

/-- Timer 1 has fired twice; neither query (calls 2 and 3) has returned. -/
def twoInFlight : Component := step oneInFlight (Event.tick 1)

/-- From `twoInFlight`, query 2 returns "error": timer 1 is cleared, query 3 is in flight. -/
def stoppedWithLate : Component := step twoInFlight (Event.statusResolved 2 "error")

/-- From `onePoller`: a response "translating" has been recorded and the query of the
next tick (call 3) is in flight. -/
def translatingShown : Component :=
  run onePoller [Event.tick 1, Event.statusResolved 2 "translating", Event.tick 1]

/-- From `twoInFlight`: query 2 returns "done", the download (call 4) succeeds, and
then query 3 returns "translating". -/
def completeThenLate : Component :=
  run twoInFlight [Event.statusResolved 2 "done", Event.downloadResolved 4 "068T",
    Event.statusResolved 3 "translating"]

/-- From `twoInFlight`: query 2 returns "done" and the download (call 4) succeeds. -/
def completed : Component :=
  run twoInFlight [Event.statusResolved 2 "done", Event.downloadResolved 4 "068T"]

/-- Job states of the specification. -/
inductive JobState where
  | Queued
  | Translating
  | Completed
  | Failed
  deriving DecidableEq, Repr

/-- The job state that a value of `fileStatus` shows: the two non-terminal statuses as
the poller writes them, and the messages of terminal success and of a translation error. -/
def jobState (fileStatus : String) : Option JobState :=
  if fileStatus = "Status: queued" then some JobState.Queued
  else if fileStatus = "Status: translating" then some JobState.Translating
  else if fileStatus = "Complete!" then some JobState.Completed
  else if fileStatus = "Error during translation." then some JobState.Failed
  else none

/-- Moves along `Queued → Translating → {Completed, Failed}` (staying put included). -/
def forward : JobState → JobState → Bool
  | JobState.Queued, JobState.Queued => true
  | JobState.Queued, JobState.Translating => true
  | JobState.Translating, JobState.Translating => true
  | JobState.Translating, JobState.Completed => true
  | JobState.Translating, JobState.Failed => true
  | JobState.Completed, JobState.Completed => true
  | JobState.Failed, JobState.Failed => true
  | _, _ => false

/-- Job 1 has completed while job 2, started before the download of job 1 resolved, has
a status query (call 6) in flight. -/
def job2Polling : Component :=
  run init [Event.uploadFinished [fileA], Event.uploadResolved 0 "J1" "K1", Event.tick 1,
    Event.statusResolved 2 "done", Event.uploadFinished [fileB],
    Event.uploadResolved 4 "J2" "K2", Event.tick 5, Event.downloadResolved 3 "068T"]

/-- The upload of one job (call 0) is pending. -/
def uploadPending : Component := step init (Event.uploadFinished [fileA])

/-- From `oneInFlight`, query 2 returns "done": the download (call 3) is pending. -/
def downloadPending : Component := step oneInFlight (Event.statusResolved 2 "done")

/-- Events raised by the timers and by the settling of the document calls, as opposed
to the actions of the user and the loading of the file list. -/
def runtimeEvent : Event → Bool
  | Event.uploadResolved _ _ _ => true
  | Event.uploadRejected _ _ => true
  | Event.tick _ => true
  | Event.statusResolved _ _ => true
  | Event.statusRejected _ => true
  | Event.downloadResolved _ _ => true
  | Event.downloadRejected _ => true
  | _ => false

/-- An event that starts a job in state `c`: `handleUploadFinished` with a non-empty
file list, or `handleTranslateSelectedFile` with a selected file. -/
def startsJob (c : Component) : Event → Bool
  | Event.uploadFinished files => !files.isEmpty
  | Event.translateSelectedFile => truthy c.selectedFile
  | _ => false

/-- One step of the polling of a job: its timer fires, or the query `callId` returns
`status`. -/
inductive PollStep where
  | tick
  | answer (callId : Nat) (status : String)
  deriving DecidableEq, Repr

/-- The event of a polling step of the timer `intervalId`. -/
def PollStep.event (intervalId : Nat) : PollStep → Event
  | PollStep.tick => Event.tick intervalId
  | PollStep.answer callId status => Event.statusResolved callId status

/-- Number of ticks of a polling schedule. -/
def ticks : List PollStep → Nat
  | [] => 0
  | PollStep.tick :: rest => ticks rest + 1
  | PollStep.answer _ _ :: rest => ticks rest

/-- The statuses answered in a polling schedule, in arrival order. -/
def answers : List PollStep → List String
  | [] => []
  | PollStep.tick :: rest => answers rest
  | PollStep.answer _ status :: rest => status :: answers rest

/-- Every answer of the schedule, run from `c`, returns a query that is in flight when
it arrives and carries a status other than "done" and "error".  Ticks and answers may
interleave in any way and answers may arrive in any order. -/
def validSchedule (intervalId : Nat) : Component → List PollStep → Bool
  | _, [] => true
  | c, PollStep.tick :: rest => validSchedule intervalId (step c (Event.tick intervalId)) rest
  | c, PollStep.answer callId status :: rest =>
    (c.queries.lookup callId).isSome && status != "done" && status != "error" &&
      validSchedule intervalId (step c (Event.statusResolved callId status)) rest

/-- The events of a job up to and without its terminal response, from a state whose
next identifier is `n`: the start event, the upload resolves with the handle, and the
polling schedule of the timer `n + 1`. -/
def pollingEvents (n : Nat) (start : Event) (document_id document_key : String)
    (schedule : List PollStep) : List Event :=
  [start, Event.uploadResolved n document_id document_key] ++
    schedule.map (PollStep.event (n + 1))

/-- The events of a successful job: `pollingEvents`, then the query `doneCall` returns
"done", and the download, which is the call after the `ticks schedule` queries,
resolves with `r`. -/
def jobRunEvents (n : Nat) (start : Event) (document_id document_key : String)
    (schedule : List PollStep) (doneCall : Nat) (r : String) : List Event :=
  pollingEvents n start document_id document_key schedule ++
    [Event.statusResolved doneCall "done",
     Event.downloadResolved (n + 2 + ticks schedule) r]

/-- One job of `init` whose timer fires twice before the first query returns "done";
the second query (call 3) is never answered. -/
def overlappingRun : Component :=
  run init (jobRunEvents 0 (Event.uploadFinished [fileA]) "J1" "K1"
    [PollStep.tick, PollStep.tick] 2 "storage://doc123")

/-- The scenario of the specification: default languages, handle J1/K1, polls
"queued", "translating", "done", retrieval "storage://doc123". -/
def scenario : Component :=
  run init (jobRunEvents 0 (Event.uploadFinished [fileA]) "J1" "K1"
    [PollStep.tick, PollStep.answer 2 "queued", PollStep.tick,
     PollStep.answer 3 "translating", PollStep.tick] 4 "storage://doc123")

/-- The event sequence the specification gives for `scenario`, written as the
`fileStatus` values of its events: Uploading, StatusUpdate(Queued),
StatusUpdate(Translating), Completed. -/
def scenarioClaimed : List String :=
  ["Uploading to DeepL...", "Status: queued", "Status: translating", "Complete!"]

/-- No timer is running and no Apex call is pending. -/
def Idle (c : Component) : Prop :=
  c.intervals = [] ∧ c.uploads = [] ∧ c.queries = [] ∧ c.downloads = []

instance instDecidableIdle (c : Component) : Decidable (Idle c) := by
  unfold Idle
  infer_instance

/-- Formality "more" is chosen and a file is selected. -/
def formalChosen : Component :=
  run init [Event.formalityChange "more", Event.filesLoaded [⟨"068B", "B", "b.docx"⟩],
    Event.fileChange "068B"]

/-! ## Helper lemmas -/

theorem lookup_dropId_self {β : Type} (id : Nat) (l : List (Nat × β)) :
    (dropId id l).lookup id = none := by
  induction l with
  | nil => rfl
  | cons e l ih =>
    obtain ⟨k, v⟩ := e
    by_cases h : k = id
    · subst h
      simpa [dropId] using ih
    · have h2 : (id == k) = false := by
        simpa using fun h3 : id = k => h h3.symm
      simpa [dropId, h, List.lookup, h2] using ih

theorem reachable_run (c : Component) (events : List Event) (h : Reachable c) :
    Reachable (run c events) := by
  induction events generalizing c with
  | nil => exact h
  | cons e es ih => exact ih (step c e) (Reachable.step c e h)

theorem status_ne_complete (status : String) : "Status: " ++ status ≠ "Complete!" := by
  intro h
  have h2 := congrArg String.data h
  simp at h2

theorem statusWrites_append (l₁ l₂ : List Effect) :
    statusWrites (l₁ ++ l₂) = statusWrites l₁ ++ statusWrites l₂ := by
  induction l₁ with
  | nil => rfl
  | cons e l ih => cases e <;> simp [statusWrites, ih]

theorem run_cons (c : Component) (e : Event) (es : List Event) :
    run c (e :: es) = run (step c e) es := rfl

theorem run_append (c : Component) (es₁ es₂ : List Event) :
    run c (es₁ ++ es₂) = run (run c es₁) es₂ := by
  simp [run, List.foldl_append]

theorem mem_of_lookup {β : Type} (l : List (Nat × β)) (k : Nat) (v : β)
    (h : l.lookup k = some v) : (k, v) ∈ l := by
  obtain ⟨l₁, l₂, rfl, -⟩ := List.lookup_eq_some_iff.mp h
  simp

theorem mem_dropId {β : Type} (id : Nat) (l : List (Nat × β)) (e : Nat × β)
    (h : e ∈ dropId id l) : e ∈ l :=
  (List.mem_filter.mp h).1

theorem idle_final (c : Component) (e : Event) (hidle : Idle c)
    (he : runtimeEvent e = true) : step c e = c := by
  obtain ⟨hi, hu, hq, hd⟩ := hidle
  cases e <;> simp [runtimeEvent] at he <;>
    simp [step, uploadResolved, uploadRejected, pollTick, statusResolved, statusRejected,
      downloadResolved, downloadRejected, hi, hu, hq, hd]

theorem start_run (c : Component) (start : Event) (document_id document_key : String)
    (hidle : Idle c) (hstart : startsJob c start = true) :
    ∃ job : Job,
      (run c [start, Event.uploadResolved c.nextId document_id document_key]).intervals =
        [(c.nextId + 1, job)] ∧
      (run c [start, Event.uploadResolved c.nextId document_id document_key]).queries = [] ∧
      (run c [start, Event.uploadResolved c.nextId document_id document_key]).uploads = [] ∧
      (run c [start, Event.uploadResolved c.nextId document_id document_key]).downloads = [] ∧
      (run c [start, Event.uploadResolved c.nextId document_id document_key]).nextId =
        c.nextId + 2 ∧
      statusWrites
          (run c [start, Event.uploadResolved c.nextId document_id document_key]).log =
        statusWrites c.log ++ ["Uploading to DeepL...", "Translating..."] := by
  obtain ⟨hi, hu, hq, hd⟩ := hidle
  cases start with
  | uploadFinished files =>
    cases files with
    | nil => simp [startsJob] at hstart
    | cons f fs =>
      exact ⟨⟨document_id, document_key, f.name⟩, by
        simp [run, step, handleUploadFinished, uploadResolved, hu, List.lookup, pollStatus,
          dropId, hi, hq, hd, statusWrites_append, statusWrites]⟩
  | translateSelectedFile =>
    have hsel : truthy c.selectedFile = true := hstart
    exact ⟨⟨document_id, document_key,
        if truthy (c.fileLookup.lookup (c.selectedFile.getD "")) then
          (c.fileLookup.lookup (c.selectedFile.getD "")).getD "" else "TranslatedFile"⟩, by
      simp [run, step, handleTranslateSelectedFile, hsel, uploadResolved, hu, List.lookup,
        pollStatus, dropId, hi, hq, hd, statusWrites_append, statusWrites]⟩
  | _ => simp [startsJob] at hstart

theorem schedule_run (intervalId : Nat) (job : Job) (schedule : List PollStep) :
    ∀ c : Component, c.intervals = [(intervalId, job)] →
      (∀ e ∈ c.queries, e.2 = (intervalId, job)) →
      validSchedule intervalId c schedule = true →
      (run c (schedule.map (PollStep.event intervalId))).intervals = [(intervalId, job)] ∧
      (∀ e ∈ (run c (schedule.map (PollStep.event intervalId))).queries,
        e.2 = (intervalId, job)) ∧
      (run c (schedule.map (PollStep.event intervalId))).nextId = c.nextId + ticks schedule ∧
      (run c (schedule.map (PollStep.event intervalId))).uploads = c.uploads ∧
      (run c (schedule.map (PollStep.event intervalId))).downloads = c.downloads ∧
      statusWrites (run c (schedule.map (PollStep.event intervalId))).log =
        statusWrites c.log ++ (answers schedule).map (fun s => "Status: " ++ s) := by
  induction schedule with
  | nil =>
    intro c hiv hinv _
    exact ⟨hiv, hinv, rfl, rfl, rfl, by simp [run, answers]⟩
  | cons p rest ih =>
    intro c hiv hinv hvalid
    cases p with
    | tick =>
      have hstep : step c (Event.tick intervalId) =
          { c with
            nextId := c.nextId + 1
            queries := c.queries ++ [(c.nextId, intervalId, job)]
            log := c.log ++ [Effect.checkDocumentStatus
              [("documentId", job.documentId), ("documentKey", job.documentKey)]] } := by
        simp [step, pollTick, hiv, List.lookup]
      have hinv2 : ∀ e ∈ (step c (Event.tick intervalId)).queries,
          e.2 = (intervalId, job) := by
        intro e he
        rw [hstep] at he
        rcases List.mem_append.mp he with h | h
        · exact hinv e h
        · simp at h
          rw [h]
      have hiv2 : (step c (Event.tick intervalId)).intervals = [(intervalId, job)] := by
        rw [hstep]; exact hiv
      have h := ih (step c (Event.tick intervalId)) hiv2 hinv2 (by simpa [validSchedule] using hvalid)
      simp only [List.map_cons, PollStep.event, run_cons]
      obtain ⟨h1, h2, h3, h4, h5, h6⟩ := h
      refine ⟨h1, h2, ?_, ?_, ?_, ?_⟩
      · rw [h3, hstep]; simp [ticks]; omega
      · rw [h4, hstep]
      · rw [h5, hstep]
      · rw [h6, hstep]; simp [statusWrites_append, statusWrites, answers]
    | answer callId status =>
      simp only [validSchedule, Bool.and_eq_true, bne_iff_ne, ne_eq] at hvalid
      obtain ⟨⟨⟨hsome, hs1⟩, hs2⟩, hrest⟩ := hvalid
      cases hl : c.queries.lookup callId with
      | none => rw [hl] at hsome; exact absurd hsome (by decide)
      | some v =>
        have hstep : step c (Event.statusResolved callId status) =
            { c with
              queries := dropId callId c.queries
              fileStatus := "Status: " ++ status
              log := c.log ++ [Effect.fileStatus ("Status: " ++ status)] } := by
          simp [step, statusResolved, hl, hs1, hs2]
        have hinv2 : ∀ e ∈ (step c (Event.statusResolved callId status)).queries,
            e.2 = (intervalId, job) := by
          intro e he
          rw [hstep] at he
          exact hinv e (mem_dropId _ _ _ he)
        have hiv2 : (step c (Event.statusResolved callId status)).intervals =
            [(intervalId, job)] := by
          rw [hstep]; exact hiv
        have h := ih (step c (Event.statusResolved callId status)) hiv2 hinv2 hrest
        simp only [List.map_cons, PollStep.event, run_cons]
        obtain ⟨h1, h2, h3, h4, h5, h6⟩ := h
        refine ⟨h1, h2, ?_, ?_, ?_, ?_⟩
        · rw [h3, hstep]; simp [ticks]
        · rw [h4, hstep]
        · rw [h5, hstep]
        · rw [h6, hstep]; simp [statusWrites_append, statusWrites, answers]

theorem done_run (c : Component) (intervalId doneCall : Nat) (job : Job) (r : String)
    (hiv : c.intervals = [(intervalId, job)])
    (hinv : ∀ e ∈ c.queries, e.2 = (intervalId, job))
    (hu : c.uploads = []) (hd : c.downloads = [])
    (hdone : (c.queries.lookup doneCall).isSome = true) :
    statusWrites (run c [Event.statusResolved doneCall "done",
        Event.downloadResolved c.nextId r]).log =
      statusWrites c.log ++ ["Status: done", "Downloading...", "Complete!"] ∧
    (run c [Event.statusResolved doneCall "done",
        Event.downloadResolved c.nextId r]).fileStatus = "Complete!" ∧
    (run c [Event.statusResolved doneCall "done",
        Event.downloadResolved c.nextId r]).downloadUrl = some (downloadUrlBase ++ r) ∧
    (run c [Event.statusResolved doneCall "done",
        Event.downloadResolved c.nextId r]).isFileProcessing = false ∧
    (run c [Event.statusResolved doneCall "done",
        Event.downloadResolved c.nextId r]).intervals = [] ∧
    (run c [Event.statusResolved doneCall "done",
        Event.downloadResolved c.nextId r]).uploads = [] ∧
    (run c [Event.statusResolved doneCall "done",
        Event.downloadResolved c.nextId r]).downloads = [] ∧
    (run c [Event.statusResolved doneCall "done",
        Event.downloadResolved c.nextId r]).queries = dropId doneCall c.queries := by
  cases hl : c.queries.lookup doneCall with
  | none => rw [hl] at hdone; exact absurd hdone (by decide)
  | some v =>
    have hv : v = (intervalId, job) := hinv (doneCall, v) (mem_of_lookup _ _ _ hl)
    subst hv
    simp [run, step, statusResolved, hl, hiv, dropId, downloadTranslatedFile,
      downloadResolved, hd, hu, List.lookup, statusWrites_append, statusWrites]

/-! ## C1: starting a job while a poller is running -/

/-- C1 (as stated, refuted): in the reachable state `onePoller` the poller of job 1
is running; `handleUploadFinished` with a non-empty file list issues the new
`initiateDocumentUpload` call without any `clearInterval`, the poller of job 1 is
still active afterwards, and once the second upload resolves two pollers are active. -/
theorem job_start_does_not_stop_poller :
    Reachable onePoller ∧
    onePoller.intervals = [(1, ⟨"J1", "K1", "a.docx"⟩)] ∧
    (step onePoller (Event.uploadFinished [fileB])).log = onePoller.log ++
      [Effect.fileStatus "Uploading to DeepL...",
       Effect.initiateDocumentUpload
         [("contentVersionId", "068B"), ("targetLang", "EN-US"), ("sourceLang", "auto")]] ∧
    (step onePoller (Event.uploadFinished [fileB])).intervals =
      [(1, ⟨"J1", "K1", "a.docx"⟩)] ∧
    Reachable twoJobs ∧
    twoJobs.intervals = [(1, ⟨"J1", "K1", "a.docx"⟩), (3, ⟨"J2", "K2", "b.docx"⟩)] := by
  refine ⟨reachable_run _ _ Reachable.init, by decide, by decide, by decide, ?_, by decide⟩
  exact reachable_run _ _ (reachable_run _ _ Reachable.init)

/-- C1 (amended): in every state, `handleUploadFinished` with a non-empty file list
leaves the active timers, the queries in flight and the pending downloads as they
are, sets `fileStatus` to "Uploading to DeepL...", `isFileProcessing` to true and
`downloadUrl` to null, and issues the `initiateDocumentUpload` call and no
`clearInterval`; in every state with a selected file `handleTranslateSelectedFile`
does the same. -/
theorem job_start_leaves_pollers_running (c : Component) (f : UploadedFile)
    (fs : List UploadedFile) :
    ((step c (Event.uploadFinished (f :: fs))).intervals = c.intervals ∧
      (step c (Event.uploadFinished (f :: fs))).queries = c.queries ∧
      (step c (Event.uploadFinished (f :: fs))).downloads = c.downloads ∧
      (step c (Event.uploadFinished (f :: fs))).fileStatus = "Uploading to DeepL..." ∧
      (step c (Event.uploadFinished (f :: fs))).isFileProcessing = true ∧
      (step c (Event.uploadFinished (f :: fs))).downloadUrl = none ∧
      (step c (Event.uploadFinished (f :: fs))).log = c.log ++
        [Effect.fileStatus "Uploading to DeepL...",
         Effect.initiateDocumentUpload (uploadParams f.contentVersionId c)]) ∧
    (truthy c.selectedFile = true →
      (step c Event.translateSelectedFile).intervals = c.intervals ∧
      (step c Event.translateSelectedFile).queries = c.queries ∧
      (step c Event.translateSelectedFile).downloads = c.downloads ∧
      (step c Event.translateSelectedFile).fileStatus = "Uploading to DeepL..." ∧
      (step c Event.translateSelectedFile).isFileProcessing = true ∧
      (step c Event.translateSelectedFile).downloadUrl = none ∧
      (step c Event.translateSelectedFile).log = c.log ++
        [Effect.fileStatus "Uploading to DeepL...",
         Effect.initiateDocumentUpload (uploadParams (c.selectedFile.getD "") c)]) := by
  refine ⟨by simp [step, handleUploadFinished], ?_⟩
  intro hsel
  simp [step, handleTranslateSelectedFile, hsel]

theorem job_start_leaves_pollers_running_witness :
    (step onePoller (Event.uploadFinished (fileB :: []))).intervals = onePoller.intervals ∧
    truthy onePollerSelected.selectedFile = true ∧
    (step onePollerSelected Event.translateSelectedFile).intervals =
      onePollerSelected.intervals :=
  ⟨(job_start_leaves_pollers_running onePoller fileB []).1.1, by decide,
   ((job_start_leaves_pollers_running onePollerSelected fileB []).2 (by decide)).1⟩

/-! ## C2: queries in flight -/

/-- C2 (as stated, refuted): in the reachable state `oneInFlight` one query of job 1
is in flight; the next tick of the same timer is not skipped but issues a second
`checkDocumentStatus` call, so two queries of the job are in flight. -/
theorem tick_overlaps_query_in_flight :
    Reachable oneInFlight ∧
    oneInFlight.queries = [(2, 1, ⟨"J1", "K1", "a.docx"⟩)] ∧
    (step oneInFlight (Event.tick 1)).queries =
      [(2, 1, ⟨"J1", "K1", "a.docx"⟩), (3, 1, ⟨"J1", "K1", "a.docx"⟩)] ∧
    (step oneInFlight (Event.tick 1)).log = oneInFlight.log ++
      [Effect.checkDocumentStatus [("documentId", "J1"), ("documentKey", "K1")]] := by
  refine ⟨?_, by decide, by decide, by decide⟩
  exact Reachable.step _ _ (reachable_run _ _ Reachable.init)

/-- C2 (amended): every tick of a running timer issues one `checkDocumentStatus`
query for its job, whatever queries are already in flight: the set of in-flight
queries grows by exactly that query. -/
theorem tick_always_queries (c : Component) (intervalId : Nat) (job : Job)
    (hrun : c.intervals.lookup intervalId = some job) :
    (step c (Event.tick intervalId)).queries = c.queries ++ [(c.nextId, intervalId, job)] ∧
    (step c (Event.tick intervalId)).log = c.log ++
      [Effect.checkDocumentStatus
        [("documentId", job.documentId), ("documentKey", job.documentKey)]] := by
  simp [step, pollTick, hrun]

theorem tick_always_queries_witness :
    oneInFlight.intervals.lookup 1 = some ⟨"J1", "K1", "a.docx"⟩ ∧
    (step oneInFlight (Event.tick 1)).queries =
      oneInFlight.queries ++ [(oneInFlight.nextId, 1, ⟨"J1", "K1", "a.docx"⟩)] :=
  ⟨by decide, (tick_always_queries oneInFlight 1 ⟨"J1", "K1", "a.docx"⟩ (by decide)).1⟩

/-! ## C3: results that arrive after the timer was cleared -/

/-- C3 (as stated, refuted): in the reachable state `stoppedWithLate` timer 1 has been
cleared while query 3 is still in flight; when that query returns "done" the
result is not discarded: `fileStatus` changes and `downloadDocument` is called. -/
theorem late_result_not_discarded :
    Reachable stoppedWithLate ∧
    stoppedWithLate.intervals = [] ∧
    stoppedWithLate.fileStatus = "Error during translation." ∧
    stoppedWithLate.downloads = [] ∧
    (step stoppedWithLate (Event.statusResolved 3 "done")).fileStatus = "Downloading..." ∧
    (step stoppedWithLate (Event.statusResolved 3 "done")).downloads =
      [(4, ⟨"J1", "K1", "a.docx"⟩)] ∧
    (step stoppedWithLate (Event.statusResolved 3 "done")).log = stoppedWithLate.log ++
      [Effect.fileStatus "Status: done", Effect.clearInterval 1,
       Effect.fileStatus "Downloading...",
       Effect.downloadDocument
         [("documentId", "J1"), ("documentKey", "K1"), ("originalFileName", "a.docx")]] := by
  refine ⟨?_, by decide, by decide, by decide, by decide, by decide, by decide⟩
  exact Reachable.step _ _ (Reachable.step _ _ (Reachable.step _ _
    (reachable_run _ _ Reachable.init)))

/-- C3 (amended): the result of a status query whose timer has already been cleared
is applied like any other result.  A status other than "done" and "error" is written
to `fileStatus`; "done" starts the download; "error" and a rejection record their
failure message and end processing.  None of them assigns `downloadUrl`. -/
theorem late_result_is_applied (c : Component) (callId intervalId : Nat) (job : Job)
    (status : String) (hq : c.queries.lookup callId = some (intervalId, job))
    (_hstopped : c.intervals.lookup intervalId = none) :
    (status ≠ "done" → status ≠ "error" →
      (step c (Event.statusResolved callId status)).fileStatus = "Status: " ++ status) ∧
    ((step c (Event.statusResolved callId "done")).fileStatus = "Downloading..." ∧
      (step c (Event.statusResolved callId "done")).downloads =
        c.downloads ++ [(c.nextId, job)]) ∧
    ((step c (Event.statusResolved callId "error")).fileStatus = "Error during translation." ∧
      (step c (Event.statusResolved callId "error")).isFileProcessing = false) ∧
    ((step c (Event.statusRejected callId)).fileStatus = "Polling failed." ∧
      (step c (Event.statusRejected callId)).isFileProcessing = false) ∧
    (step c (Event.statusResolved callId status)).downloadUrl = c.downloadUrl ∧
    (step c (Event.statusRejected callId)).downloadUrl = c.downloadUrl := by
  refine ⟨?_, ?_, ?_, ?_, ?_, ?_⟩
  · intro h1 h2
    simp [step, statusResolved, hq, h1, h2]
  · simp [step, statusResolved, hq, downloadTranslatedFile]
  · simp [step, statusResolved, hq]
  · simp [step, statusRejected, hq]
  · simp only [step, statusResolved, hq]
    split_ifs <;> simp [downloadTranslatedFile]
  · simp [step, statusRejected, hq]

theorem late_result_is_applied_witness :
    stoppedWithLate.queries.lookup 3 = some (1, ⟨"J1", "K1", "a.docx"⟩) ∧
    stoppedWithLate.intervals.lookup 1 = none ∧
    (step stoppedWithLate (Event.statusResolved 3 "done")).fileStatus = "Downloading..." :=
  ⟨by decide, by decide,
   (late_result_is_applied stoppedWithLate 3 1 ⟨"J1", "K1", "a.docx"⟩ "done"
     (by decide) (by decide)).2.1.1⟩

/-! ## C4: order of recorded job states -/

/-- C4 (as stated, refuted): in the reachable state `translatingShown` the recorded
state is Translating; the next response "queued" moves it back to Queued.  In the
reachable state `stoppedWithLate` the recorded state is the terminal Failed; the
response of the query still in flight moves it to Queued. -/
theorem recorded_state_goes_backward :
    Reachable translatingShown ∧
    jobState translatingShown.fileStatus = some JobState.Translating ∧
    jobState (step translatingShown (Event.statusResolved 3 "queued")).fileStatus =
      some JobState.Queued ∧
    forward JobState.Translating JobState.Queued = false ∧
    Reachable stoppedWithLate ∧
    jobState stoppedWithLate.fileStatus = some JobState.Failed ∧
    jobState (step stoppedWithLate (Event.statusResolved 3 "queued")).fileStatus =
      some JobState.Queued ∧
    forward JobState.Failed JobState.Queued = false := by
  refine ⟨?_, by decide, by decide, by decide, ?_, by decide, by decide, by decide⟩
  · exact reachable_run _ _ (reachable_run _ _ Reachable.init)
  · exact Reachable.step _ _ (Reachable.step _ _ (Reachable.step _ _
      (reachable_run _ _ Reachable.init)))

/-- C4 (amended): the state the poller records follows the latest status response
alone.  After a response with a status other than "done" and "error", `fileStatus` is
"Status: " followed by that status, whatever was recorded before; so "queued" records
Queued and "translating" records Translating from every prior state. -/
theorem recorded_state_follows_response (c : Component) (callId intervalId : Nat)
    (job : Job) (status : String)
    (hq : c.queries.lookup callId = some (intervalId, job))
    (h1 : status ≠ "done") (h2 : status ≠ "error") :
    (step c (Event.statusResolved callId status)).fileStatus = "Status: " ++ status ∧
    jobState (step c (Event.statusResolved callId "queued")).fileStatus =
      some JobState.Queued ∧
    jobState (step c (Event.statusResolved callId "translating")).fileStatus =
      some JobState.Translating := by
  refine ⟨?_, ?_, ?_⟩
  · simp [step, statusResolved, hq, h1, h2]
  · have h : (step c (Event.statusResolved callId "queued")).fileStatus = "Status: queued" := by
      simp [step, statusResolved, hq]
    rw [h]
    decide
  · have h : (step c (Event.statusResolved callId "translating")).fileStatus =
        "Status: translating" := by
      simp [step, statusResolved, hq]
    rw [h]
    decide

theorem recorded_state_follows_response_witness :
    translatingShown.queries.lookup 3 = some (1, ⟨"J1", "K1", "a.docx"⟩) ∧
    (step translatingShown (Event.statusResolved 3 "queued")).fileStatus =
      "Status: " ++ "queued" :=
  ⟨by decide,
   (recorded_state_follows_response translatingShown 3 1 ⟨"J1", "K1", "a.docx"⟩ "queued"
     (by decide) (by decide) (by decide)).1⟩

/-! ## C5: `downloadUrl` and completion -/

/-- C5 (as stated, refuted): in the reachable state `completeThenLate` the download
URL is set while `fileStatus` is not "Complete!": a status response that arrived after
the download overwrote `fileStatus` and left `downloadUrl` alone. -/
theorem download_url_set_without_complete :
    Reachable completeThenLate ∧
    completeThenLate.downloadUrl = some "/sfc/servlet.shepherd/version/download/068T" ∧
    completeThenLate.fileStatus = "Status: translating" ∧
    ¬ (completeThenLate.downloadUrl ≠ none ↔ completeThenLate.fileStatus = "Complete!") := by
  refine ⟨?_, by decide, by decide, by decide⟩
  exact reachable_run _ _ (Reachable.step _ _ (Reachable.step _ _
    (reachable_run _ _ Reachable.init)))

theorem complete_step (c : Component) (e : Event)
    (h : c.fileStatus = "Complete!" → c.downloadUrl ≠ none) :
    (step c e).fileStatus = "Complete!" → (step c e).downloadUrl ≠ none := by
  cases e with
  | sourceChange v => exact h
  | targetChange v => exact h
  | formalityChange v => exact h
  | filesLoaded r => exact h
  | fileChange v => exact h
  | uploadFinished fs =>
    cases fs with
    | nil => exact h
    | cons f fs => simp [step, handleUploadFinished]
  | translateSelectedFile =>
    by_cases hs : truthy c.selectedFile = true
    · simp [step, handleTranslateSelectedFile, hs]
    · simpa [step, handleTranslateSelectedFile, hs] using h
  | uploadResolved i d k =>
    cases hl : c.uploads.lookup i with
    | none => simpa [step, uploadResolved, hl] using h
    | some x => simp [step, uploadResolved, hl, pollStatus]
  | uploadRejected i err =>
    cases hl : c.uploads.lookup i with
    | none => simpa [step, uploadRejected, hl] using h
    | some x => simp [step, uploadRejected, hl]
  | tick i =>
    cases hl : c.intervals.lookup i with
    | none => simpa [step, pollTick, hl] using h
    | some x => simpa [step, pollTick, hl] using h
  | statusResolved i s =>
    cases hl : c.queries.lookup i with
    | none => simpa [step, statusResolved, hl] using h
    | some x =>
      simp only [step, statusResolved, hl]
      split_ifs
      · simp [downloadTranslatedFile]
      · simp
      · intro h3
        exact absurd h3 (status_ne_complete s)
  | statusRejected i =>
    cases hl : c.queries.lookup i with
    | none => simpa [step, statusRejected, hl] using h
    | some x => simp [step, statusRejected, hl]
  | downloadResolved i r =>
    cases hl : c.downloads.lookup i with
    | none => simpa [step, downloadResolved, hl] using h
    | some x => simp [step, downloadResolved, hl]
  | downloadRejected i =>
    cases hl : c.downloads.lookup i with
    | none => simpa [step, downloadRejected, hl] using h
    | some x => simp [step, downloadRejected, hl]

/-- C5 (amended): in every reachable state, if `fileStatus` is "Complete!" then
`downloadUrl` is set. -/
theorem complete_has_download_url (c : Component) (hc : Reachable c)
    (hdone : c.fileStatus = "Complete!") : c.downloadUrl ≠ none := by
  induction hc with
  | init => exact absurd hdone (by decide)
  | step c e _ ih => exact complete_step c e ih hdone

theorem complete_has_download_url_witness :
    Reachable completed ∧ completed.fileStatus = "Complete!" ∧ completed.downloadUrl ≠ none :=
  ⟨reachable_run _ _ (Reachable.step _ _ (Reachable.step _ _
      (reachable_run _ _ Reachable.init))),
   by decide,
   complete_has_download_url completed
     (reachable_run _ _ (Reachable.step _ _ (Reachable.step _ _
       (reachable_run _ _ Reachable.init)))) (by decide)⟩

/-! ## C6: the run of one successful job -/

/-- C6 (as stated, refuted): in the scenario of the specification `fileStatus` takes
seven values, not the four of the claimed sequence: "Translating..." follows the
upload, the response "done" is recorded as "Status: done" and followed by
"Downloading...", and the reference exposed in `downloadUrl` is the download path
built from the retrieval result, not the result itself. -/
theorem scenario_status_sequence :
    statusWrites scenario.log =
      ["Uploading to DeepL...", "Translating...", "Status: queued", "Status: translating",
       "Status: done", "Downloading...", "Complete!"] ∧
    statusWrites scenario.log ≠ scenarioClaimed ∧
    scenario.downloadUrl =
      some "/sfc/servlet.shepherd/version/download/storage://doc123" ∧
    scenario.downloadUrl ≠ some "storage://doc123" := by
  decide

/-- C6 (amended): take an idle component and the events `jobRunEvents` of one job: a
start by either entry point, the upload resolves, the timer ticks and its queries
return in any interleaving and order (each answer returning a query then in flight,
with a status other than "done" and "error"), one query in flight returns "done", and
the download resolves with `r`.  Then the values written to `fileStatus` are
"Uploading to DeepL...", "Translating...", one "Status: s" per answer in arrival
order, "Status: done", "Downloading..." and "Complete!"; afterwards `downloadUrl` is
the download path of `r`, `isFileProcessing` is false, the timer is cleared and no
upload or download is pending.  The queries in flight are those that were in flight
before "done" arrived, less the one that returned it: they need not be none. -/
theorem job_run_status_sequence (c : Component) (start : Event)
    (document_id document_key : String) (schedule : List PollStep) (doneCall : Nat)
    (r : String) (hidle : Idle c) (hstart : startsJob c start = true)
    (hvalid : validSchedule (c.nextId + 1)
      (run c [start, Event.uploadResolved c.nextId document_id document_key]) schedule = true)
    (hdone : ((run c (pollingEvents c.nextId start document_id document_key
      schedule)).queries.lookup doneCall).isSome = true) :
    statusWrites (run c (jobRunEvents c.nextId start document_id document_key schedule
        doneCall r)).log =
      statusWrites c.log ++ ["Uploading to DeepL...", "Translating..."] ++
        (answers schedule).map (fun s => "Status: " ++ s) ++
        ["Status: done", "Downloading...", "Complete!"] ∧
    (run c (jobRunEvents c.nextId start document_id document_key schedule
        doneCall r)).fileStatus = "Complete!" ∧
    (run c (jobRunEvents c.nextId start document_id document_key schedule
        doneCall r)).downloadUrl = some (downloadUrlBase ++ r) ∧
    (run c (jobRunEvents c.nextId start document_id document_key schedule
        doneCall r)).isFileProcessing = false ∧
    (run c (jobRunEvents c.nextId start document_id document_key schedule
        doneCall r)).intervals = [] ∧
    (run c (jobRunEvents c.nextId start document_id document_key schedule
        doneCall r)).uploads = [] ∧
    (run c (jobRunEvents c.nextId start document_id document_key schedule
        doneCall r)).downloads = [] ∧
    (run c (jobRunEvents c.nextId start document_id document_key schedule
        doneCall r)).queries =
      dropId doneCall (run c (pollingEvents c.nextId start document_id document_key
        schedule)).queries := by
  obtain ⟨job, h2iv, h2q, h2u, h2d, h2n, h2l⟩ :=
    start_run c start document_id document_key hidle hstart
  have hs := schedule_run (c.nextId + 1) job schedule
    (run c [start, Event.uploadResolved c.nextId document_id document_key]) h2iv
    (by rw [h2q]; intro e he; cases he) hvalid
  simp only [jobRunEvents, pollingEvents, run_append] at hdone ⊢
  generalize run (run c [start, Event.uploadResolved c.nextId document_id document_key])
    (schedule.map (PollStep.event (c.nextId + 1))) = c3 at hs hdone ⊢
  obtain ⟨h3iv, h3inv, h3n, h3u, h3d, h3l⟩ := hs
  have hn : c.nextId + 2 + ticks schedule = c3.nextId := by rw [h3n, h2n]
  rw [hn]
  have hfin := done_run c3 (c.nextId + 1) doneCall job r h3iv h3inv (h3u.trans h2u)
    (h3d.trans h2d) hdone
  rw [h3l, h2l] at hfin
  simpa using hfin

theorem job_run_status_sequence_witness :
    Idle init ∧
    startsJob init (Event.uploadFinished [fileA]) = true ∧
    validSchedule (init.nextId + 1)
      (run init [Event.uploadFinished [fileA], Event.uploadResolved init.nextId "J1" "K1"])
      [PollStep.tick, PollStep.answer 2 "queued", PollStep.tick,
       PollStep.answer 3 "translating", PollStep.tick] = true ∧
    statusWrites (run init (jobRunEvents init.nextId (Event.uploadFinished [fileA]) "J1" "K1"
        [PollStep.tick, PollStep.answer 2 "queued", PollStep.tick,
         PollStep.answer 3 "translating", PollStep.tick] 4 "storage://doc123")).log =
      statusWrites init.log ++ ["Uploading to DeepL...", "Translating..."] ++
        (answers [PollStep.tick, PollStep.answer 2 "queued", PollStep.tick,
          PollStep.answer 3 "translating", PollStep.tick]).map (fun s => "Status: " ++ s) ++
        ["Status: done", "Downloading...", "Complete!"] ∧
    validSchedule (init.nextId + 1)
      (run init [Event.uploadFinished [fileA], Event.uploadResolved init.nextId "J1" "K1"])
      [PollStep.tick, PollStep.tick] = true ∧
    (run init (jobRunEvents init.nextId (Event.uploadFinished [fileA]) "J1" "K1"
        [PollStep.tick, PollStep.tick] 2 "storage://doc123")).fileStatus = "Complete!" ∧
    overlappingRun.queries = [(3, 1, ⟨"J1", "K1", "a.docx"⟩)] :=
  ⟨⟨rfl, rfl, rfl, rfl⟩, by decide, by decide,
   (job_run_status_sequence init (Event.uploadFinished [fileA]) "J1" "K1"
     [PollStep.tick, PollStep.answer 2 "queued", PollStep.tick,
      PollStep.answer 3 "translating", PollStep.tick] 4 "storage://doc123"
     ⟨rfl, rfl, rfl, rfl⟩ (by decide) (by decide) (by decide)).1,
   by decide,
   (job_run_status_sequence init (Event.uploadFinished [fileA]) "J1" "K1"
     [PollStep.tick, PollStep.tick] 2 "storage://doc123"
     ⟨rfl, rfl, rfl, rfl⟩ (by decide) (by decide) (by decide)).2.1,
   by decide⟩

/-! ## C7: a response "error" -/

/-- C7 (as stated, refuted): in the reachable state `job2Polling` job 1 has completed
and `downloadUrl` holds its download path; when the query of job 2 returns "error",
`fileStatus` is "Error during translation." and `downloadUrl` is still set, not
unset.  In the reachable state `stoppedWithLate` a query has returned "error"; the
query still in flight then returns "done", `downloadDocument` is called for the same
job and the job ends with "Complete!", not failed. -/
theorem error_does_not_unset_download_url :
    Reachable job2Polling ∧
    (step job2Polling (Event.statusResolved 6 "error")).fileStatus =
      "Error during translation." ∧
    (step job2Polling (Event.statusResolved 6 "error")).downloadUrl =
      some "/sfc/servlet.shepherd/version/download/068T" ∧
    Reachable stoppedWithLate ∧
    stoppedWithLate.fileStatus = "Error during translation." ∧
    (step stoppedWithLate (Event.statusResolved 3 "done")).downloads =
      [(4, ⟨"J1", "K1", "a.docx"⟩)] ∧
    (run stoppedWithLate [Event.statusResolved 3 "done",
      Event.downloadResolved 4 "068T"]).fileStatus = "Complete!" := by
  refine ⟨reachable_run _ _ Reachable.init, by decide, by decide, ?_, by decide, by decide,
    by decide⟩
  exact Reachable.step _ _ (Reachable.step _ _ (Reachable.step _ _
    (reachable_run _ _ Reachable.init)))

/-- C7 (amended): when a status query returns "error", whatever the state before, the
handler of that response clears the timer of its poller (it is no longer active and a
later tick of it does nothing), sets `fileStatus` to "Error during translation." and
`isFileProcessing` to false, issues no `downloadDocument` call (its visible actions
are the two `fileStatus` writes and the `clearInterval`) and does not assign
`downloadUrl`, which keeps the value it had. -/
theorem error_status_fails_job (c : Component) (callId intervalId : Nat) (job : Job)
    (hq : c.queries.lookup callId = some (intervalId, job)) :
    (step c (Event.statusResolved callId "error")).intervals.lookup intervalId = none ∧
    step (step c (Event.statusResolved callId "error")) (Event.tick intervalId) =
      step c (Event.statusResolved callId "error") ∧
    (step c (Event.statusResolved callId "error")).fileStatus =
      "Error during translation." ∧
    (step c (Event.statusResolved callId "error")).isFileProcessing = false ∧
    (step c (Event.statusResolved callId "error")).downloads = c.downloads ∧
    (step c (Event.statusResolved callId "error")).log = c.log ++
      [Effect.fileStatus "Status: error", Effect.clearInterval intervalId,
       Effect.fileStatus "Error during translation."] ∧
    (step c (Event.statusResolved callId "error")).downloadUrl = c.downloadUrl := by
  have hstop : (step c (Event.statusResolved callId "error")).intervals.lookup intervalId =
      none := by
    simp [step, statusResolved, hq, lookup_dropId_self]
  refine ⟨hstop, ?_, ?_, ?_, ?_, ?_, ?_⟩
  · show pollTick intervalId (step c (Event.statusResolved callId "error")) = _
    simp only [pollTick, hstop]
  all_goals simp [step, statusResolved, hq]

theorem error_status_fails_job_witness :
    oneInFlight.queries.lookup 2 = some (1, ⟨"J1", "K1", "a.docx"⟩) ∧
    (step oneInFlight (Event.statusResolved 2 "error")).fileStatus =
      "Error during translation." ∧
    (step oneInFlight (Event.statusResolved 2 "error")).downloadUrl =
      oneInFlight.downloadUrl :=
  ⟨by decide,
   (error_status_fails_job oneInFlight 2 1 ⟨"J1", "K1", "a.docx"⟩ (by decide)).2.2.1,
   (error_status_fails_job oneInFlight 2 1 ⟨"J1", "K1", "a.docx"⟩ (by decide)).2.2.2.2.2.2⟩

/-! ## C8: the four failure messages -/

/-- C8: each failure path, taken from any state in which its own call is pending,
ends with `isFileProcessing` false and its own `fileStatus` message: a rejected upload
(from either entry point) with "Upload failed.", a status response "error" with
"Error during translation.", a rejected status query with "Polling failed." and a
rejected download with "Download failed.".  The four resulting values of `fileStatus`
are pairwise distinct.  When no timer runs and no call is pending after the failure,
no tick and no settling of a call changes the component, so the message stays. -/
theorem failure_paths_distinct (cu cs cr cd : Component) (u s r d : Nat)
    (error : ApexError) :
    ((cu.uploads.lookup u).isSome = true →
      (step cu (Event.uploadRejected u error)).fileStatus = "Upload failed." ∧
      (step cu (Event.uploadRejected u error)).isFileProcessing = false) ∧
    ((cs.queries.lookup s).isSome = true →
      (step cs (Event.statusResolved s "error")).fileStatus = "Error during translation." ∧
      (step cs (Event.statusResolved s "error")).isFileProcessing = false) ∧
    ((cr.queries.lookup r).isSome = true →
      (step cr (Event.statusRejected r)).fileStatus = "Polling failed." ∧
      (step cr (Event.statusRejected r)).isFileProcessing = false) ∧
    ((cd.downloads.lookup d).isSome = true →
      (step cd (Event.downloadRejected d)).fileStatus = "Download failed." ∧
      (step cd (Event.downloadRejected d)).isFileProcessing = false) ∧
    ((cu.uploads.lookup u).isSome = true → (cs.queries.lookup s).isSome = true →
      (cr.queries.lookup r).isSome = true → (cd.downloads.lookup d).isSome = true →
      [(step cu (Event.uploadRejected u error)).fileStatus,
       (step cs (Event.statusResolved s "error")).fileStatus,
       (step cr (Event.statusRejected r)).fileStatus,
       (step cd (Event.downloadRejected d)).fileStatus].Nodup) ∧
    (∀ c ∈ [step cu (Event.uploadRejected u error),
        step cs (Event.statusResolved s "error"),
        step cr (Event.statusRejected r),
        step cd (Event.downloadRejected d)],
      Idle c → ∀ e, runtimeEvent e = true → step c e = c) := by
  have h1 : (cu.uploads.lookup u).isSome = true →
      (step cu (Event.uploadRejected u error)).fileStatus = "Upload failed." ∧
      (step cu (Event.uploadRejected u error)).isFileProcessing = false := by
    intro h
    cases hl : cu.uploads.lookup u with
    | none => rw [hl] at h; exact absurd h (by decide)
    | some v => simp [step, uploadRejected, hl]
  have h2 : (cs.queries.lookup s).isSome = true →
      (step cs (Event.statusResolved s "error")).fileStatus = "Error during translation." ∧
      (step cs (Event.statusResolved s "error")).isFileProcessing = false := by
    intro h
    cases hl : cs.queries.lookup s with
    | none => rw [hl] at h; exact absurd h (by decide)
    | some v => simp [step, statusResolved, hl]
  have h3 : (cr.queries.lookup r).isSome = true →
      (step cr (Event.statusRejected r)).fileStatus = "Polling failed." ∧
      (step cr (Event.statusRejected r)).isFileProcessing = false := by
    intro h
    cases hl : cr.queries.lookup r with
    | none => rw [hl] at h; exact absurd h (by decide)
    | some v => simp [step, statusRejected, hl]
  have h4 : (cd.downloads.lookup d).isSome = true →
      (step cd (Event.downloadRejected d)).fileStatus = "Download failed." ∧
      (step cd (Event.downloadRejected d)).isFileProcessing = false := by
    intro h
    cases hl : cd.downloads.lookup d with
    | none => rw [hl] at h; exact absurd h (by decide)
    | some v => simp [step, downloadRejected, hl]
  refine ⟨h1, h2, h3, h4, ?_, ?_⟩
  · intro hu hs hr hd
    rw [(h1 hu).1, (h2 hs).1, (h3 hr).1, (h4 hd).1]
    decide
  · intro c _ hidle e he
    exact idle_final c e hidle he

theorem failure_paths_distinct_witness :
    (uploadPending.uploads.lookup 0).isSome = true ∧
    (oneInFlight.queries.lookup 2).isSome = true ∧
    (downloadPending.downloads.lookup 3).isSome = true ∧
    (step uploadPending (Event.uploadRejected 0 ⟨none, some "timeout"⟩)).fileStatus =
      "Upload failed." ∧
    (step oneInFlight (Event.statusResolved 2 "error")).fileStatus =
      "Error during translation." ∧
    (step oneInFlight (Event.statusRejected 2)).fileStatus = "Polling failed." ∧
    (step downloadPending (Event.downloadRejected 3)).fileStatus = "Download failed." ∧
    Idle (step oneInFlight (Event.statusRejected 2)) ∧
    step (step oneInFlight (Event.statusRejected 2)) (Event.tick 1) =
      step oneInFlight (Event.statusRejected 2) :=
  ⟨by decide, by decide, by decide,
   ((failure_paths_distinct uploadPending oneInFlight oneInFlight downloadPending 0 2 2 3
     ⟨none, some "timeout"⟩).1 (by decide)).1,
   ((failure_paths_distinct uploadPending oneInFlight oneInFlight downloadPending 0 2 2 3
     ⟨none, some "timeout"⟩).2.1 (by decide)).1,
   ((failure_paths_distinct uploadPending oneInFlight oneInFlight downloadPending 0 2 2 3
     ⟨none, some "timeout"⟩).2.2.1 (by decide)).1,
   ((failure_paths_distinct uploadPending oneInFlight oneInFlight downloadPending 0 2 2 3
     ⟨none, some "timeout"⟩).2.2.2.1 (by decide)).1,
   by decide,
   (failure_paths_distinct uploadPending oneInFlight oneInFlight downloadPending 0 2 2 3
     ⟨none, some "timeout"⟩).2.2.2.2.2 _ (by simp) (by decide) (Event.tick 1) rfl⟩

/-! ## C9: the upload request -/

/-- C9 (as stated, refuted): with formality "more" chosen, the request of either
entry point has the keys `contentVersionId`, `targetLang` and `sourceLang` only; it
has no formality entry, and it is the same request as with formality "less". -/
theorem upload_request_omits_formality :
    formalChosen.formality = "more" ∧
    (step formalChosen (Event.uploadFinished [fileA])).log =
      [Effect.fileStatus "Uploading to DeepL...",
       Effect.initiateDocumentUpload
         [("contentVersionId", "068A"), ("targetLang", "EN-US"), ("sourceLang", "auto")]] ∧
    (step formalChosen Event.translateSelectedFile).log =
      [Effect.fileStatus "Uploading to DeepL...",
       Effect.initiateDocumentUpload
         [("contentVersionId", "068B"), ("targetLang", "EN-US"), ("sourceLang", "auto")]] ∧
    (uploadParams "068A" formalChosen).lookup "formality" = none ∧
    (step (step formalChosen (Event.formalityChange "less")) (Event.uploadFinished [fileA])).log =
      (step formalChosen (Event.uploadFinished [fileA])).log := by
  decide

/-- C9 (amended): in every component state the upload request of
`handleUploadFinished` with a non-empty file list carries three inputs, the file
reference as `contentVersionId`, the selected target language and the selected source
language, and is the same for every formality; in every state with a selected file
the request of `handleTranslateSelectedFile` carries the same three inputs and is the
same for every formality; with no file selected `handleTranslateSelectedFile` builds
no request. -/
theorem upload_request_fields (c : Component) (f : UploadedFile) (fs : List UploadedFile)
    (formality : String) :
    ((step c (Event.uploadFinished (f :: fs))).log = c.log ++
        [Effect.fileStatus "Uploading to DeepL...",
         Effect.initiateDocumentUpload
           [("contentVersionId", f.contentVersionId), ("targetLang", c.targetLang),
            ("sourceLang", c.sourceLang)]] ∧
      (step (step c (Event.formalityChange formality)) (Event.uploadFinished (f :: fs))).log =
        (step c (Event.uploadFinished (f :: fs))).log) ∧
    (truthy c.selectedFile = true →
      (step c Event.translateSelectedFile).log = c.log ++
        [Effect.fileStatus "Uploading to DeepL...",
         Effect.initiateDocumentUpload
           [("contentVersionId", c.selectedFile.getD ""), ("targetLang", c.targetLang),
            ("sourceLang", c.sourceLang)]] ∧
      (step (step c (Event.formalityChange formality)) Event.translateSelectedFile).log =
        (step c Event.translateSelectedFile).log) ∧
    (truthy c.selectedFile = false →
      (step c Event.translateSelectedFile).log = c.log ++
        [Effect.showToast "Error" "Please select a file to translate." "error"]) := by
  refine ⟨⟨?_, ?_⟩, ?_, ?_⟩
  · simp [step, handleUploadFinished, uploadParams]
  · simp [step, handleUploadFinished, uploadParams, handleFormalityChange]
  · intro hsel
    have hsel2 : truthy (handleFormalityChange formality c).selectedFile = true := hsel
    refine ⟨?_, ?_⟩
    · simp [step, handleTranslateSelectedFile, hsel, uploadParams]
    · simp only [step, handleTranslateSelectedFile, hsel, hsel2]
      simp [uploadParams, handleFormalityChange]
  · intro hsel
    simp [step, handleTranslateSelectedFile, hsel]

theorem upload_request_fields_witness :
    (step init (Event.uploadFinished (fileA :: []))).log = init.log ++
      [Effect.fileStatus "Uploading to DeepL...",
       Effect.initiateDocumentUpload
         [("contentVersionId", fileA.contentVersionId), ("targetLang", init.targetLang),
          ("sourceLang", init.sourceLang)]] ∧
    truthy formalChosen.selectedFile = true ∧
    (step formalChosen Event.translateSelectedFile).log = formalChosen.log ++
      [Effect.fileStatus "Uploading to DeepL...",
       Effect.initiateDocumentUpload
         [("contentVersionId", formalChosen.selectedFile.getD ""),
          ("targetLang", formalChosen.targetLang), ("sourceLang", formalChosen.sourceLang)]] ∧
    truthy init.selectedFile = false ∧
    (step init Event.translateSelectedFile).log = init.log ++
      [Effect.showToast "Error" "Please select a file to translate." "error"] :=
  ⟨(upload_request_fields init fileA [] "less").1.1, by decide,
   ((upload_request_fields formalChosen fileA [] "less").2.1 (by decide)).1, by decide,
   (upload_request_fields init fileA [] "less").2.2 (by decide)⟩

/-! ## C10: statuses the poller does not know -/

/-- C10 (as stated, refuted): in the reachable state `translatingShown` the recorded
state is Translating; a response with the unknown status "paused" overwrites
`fileStatus`, so the job does not stay in the state it was in. -/
theorem unknown_status_changes_recorded_state :
    Reachable translatingShown ∧
    translatingShown.fileStatus = "Status: translating" ∧
    jobState translatingShown.fileStatus = some JobState.Translating ∧
    (step translatingShown (Event.statusResolved 3 "paused")).fileStatus = "Status: paused" ∧
    jobState (step translatingShown (Event.statusResolved 3 "paused")).fileStatus = none := by
  refine ⟨?_, by decide, by decide, by decide, by decide⟩
  exact reachable_run _ _ (reachable_run _ _ Reachable.init)

/-- C10 (amended): a response with a status other than "done" and "error" (so every
status the poller does not know) writes "Status: " followed by the status to
`fileStatus` and changes nothing else of the component: the timers, and with them
the poller, `isFileProcessing`, `downloadUrl` and the pending downloads stay as they
are, and the `fileStatus` write is the only visible action. -/
theorem unknown_status_only_writes_fileStatus (c : Component) (callId intervalId : Nat)
    (job : Job) (status : String)
    (hq : c.queries.lookup callId = some (intervalId, job))
    (h1 : status ≠ "done") (h2 : status ≠ "error") :
    step c (Event.statusResolved callId status) =
      { c with
        queries := dropId callId c.queries
        fileStatus := "Status: " ++ status
        log := c.log ++ [Effect.fileStatus ("Status: " ++ status)] } ∧
    (step c (Event.statusResolved callId status)).intervals = c.intervals ∧
    (step c (Event.statusResolved callId status)).isFileProcessing = c.isFileProcessing ∧
    (step c (Event.statusResolved callId status)).downloadUrl = c.downloadUrl ∧
    (step c (Event.statusResolved callId status)).downloads = c.downloads := by
  simp [step, statusResolved, hq, h1, h2]

theorem unknown_status_only_writes_fileStatus_witness :
    translatingShown.queries.lookup 3 = some (1, ⟨"J1", "K1", "a.docx"⟩) ∧
    (step translatingShown (Event.statusResolved 3 "paused")).intervals =
      translatingShown.intervals :=
  ⟨by decide,
   (unknown_status_only_writes_fileStatus translatingShown 3 1 ⟨"J1", "K1", "a.docx"⟩
     "paused" (by decide) (by decide) (by decide)).2.1⟩

end DeepLUtilityBar
